import Mathlib

/-!
Shallow embedding of the seat-reservation core of the `movie_ticket_booking_system`
repository: the Socket.IO seat-lock handlers (`select-seats`, `confirm-booking`,
the expired-lock cleanup interval), the booking-creation route (`POST /` in the
bookings router), the Stripe webhook branches (`payment_intent.succeeded`,
`payment_intent.payment_failed` in `routes/payments.ts`), and the seat-map query
(`GET /showtimes/:showtimeId/seats` in `routes/movies.ts`).

Identifiers (uuids in the source) are modelled as `Nat`; timestamps (ISO strings
compared lexicographically, equivalently instants) as `Nat` milliseconds. The
supabase tables become lists of rows; each handler becomes a function from the
database state (plus the request parameters and the current time) to the new
state together with the list of Socket.IO emissions it performs.
-/

namespace MovieTicket

/-- Booking lifecycle status (`bookings.status` column). -/
inductive BookingStatus
  | pending
  | paid
  | confirmed
  | cancelled
deriving DecidableEq, Repr

/-- Payment status (`payments.payment_status` column). -/
inductive PaymentStatus
  | pending
  | completed
  | failed
deriving DecidableEq, Repr

/-- Seat class (`seats.seat_type` column). -/
inductive SeatType
  | regular
  | premium
  | vip
deriving DecidableEq, Repr

/-- A row of the `seats` table. -/
structure Seat where
  id : Nat
  theater_id : Nat
  row_number : Nat
  seat_number : Nat
  seat_type : SeatType
deriving DecidableEq, Repr

/-- A row of the `showtimes` table (only the columns the embedded routes read). -/
structure Showtime where
  id : Nat
  theater_id : Nat
deriving DecidableEq, Repr

/-- A row of the `seat_locks` table. -/
structure SeatLock where
  seat_id : Nat
  showtime_id : Nat
  user_id : Nat
  locked_until : Nat
deriving DecidableEq, Repr

/-- A row of the `bookings` table. -/
structure Booking where
  id : Nat
  user_id : Nat
  showtime_id : Nat
  total_amount : Nat
  booking_date : Nat
  status : BookingStatus
deriving DecidableEq, Repr

/-- A row of the `booking_seats` link table. -/
structure BookingSeat where
  booking_id : Nat
  seat_id : Nat
  showtime_id : Nat
deriving DecidableEq, Repr

/-- A row of the `payments` table. -/
structure Payment where
  booking_id : Nat
  stripe_payment_intent_id : Nat
  amount : Nat
  payment_status : PaymentStatus
  payment_date : Option Nat
deriving DecidableEq, Repr

/-- The supabase database state: the five relations of the core. -/
structure DB where
  seats : List Seat
  showtimes : List Showtime
  seat_locks : List SeatLock
  bookings : List Booking
  booking_seats : List BookingSeat
  payments : List Payment
deriving DecidableEq, Repr

/-- Payload of a Socket.IO emission to a showtime room. -/
inductive EventKind
  | seatsLocked (seatIds : List Nat) (lockedBy : Nat) (lockedUntil : Nat)
  | seatsReleased (seatIds : List Nat)
  | seatsBooked (seatIds : List Nat) (bookingId : Nat)
deriving DecidableEq, Repr

/-- One Socket.IO emission: the showtime room it targets, whether the emitting
socket is excluded from delivery (`socket.to(room)` excludes the sender,
`io.to(room)` reaches the whole room), and the event payload. -/
structure Emit where
  showtime_id : Nat
  excludesSender : Bool
  event : EventKind
deriving DecidableEq, Repr

/-! ## Lock Manager: the `select-seats` handler -/

/-- The lock TTL used by the `select-seats` handler:
`Date.now() + 10 * 60 * 1000` milliseconds. -/
def lockTTLms : Nat := 10 * 60 * 1000

/-- Two `seat_locks` rows collide on the table's unique key `(seat_id, showtime_id)`. -/
def sameLockKey (a b : SeatLock) : Bool :=
  a.seat_id == b.seat_id && a.showtime_id == b.showtime_id

/-- `supabase.from('seat_locks').upsert(l)`: replace the row with the same
`(seat_id, showtime_id)` key if one exists, otherwise insert. -/
def upsertLock (locks : List SeatLock) (l : SeatLock) : List SeatLock :=
  if locks.any (fun x => sameLockKey x l) then
    locks.map (fun x => if sameLockKey x l then l else x)
  else
    locks ++ [l]

/-- The `select` branch of the `select-seats` handler: computes one
`lockExpiry = now + 10 minutes`, upserts a lock row per requested seat, then
emits `seats-locked` to the other members of the showtime room. There is no
conflict check of any kind before the upserts. -/
def selectSeats (db : DB) (now : Nat) (showtimeId : Nat) (seatIds : List Nat)
    (userId : Nat) : DB × List Emit :=
  let lockExpiry := now + lockTTLms
  let locks := seatIds.foldl
    (fun acc seatId => upsertLock acc ⟨seatId, showtimeId, userId, lockExpiry⟩)
    db.seat_locks
  ({ db with seat_locks := locks },
   [⟨showtimeId, true, .seatsLocked seatIds userId lockExpiry⟩])

/-- `supabase.from('seat_locks').delete().eq('seat_id', seatId).eq('user_id', userId)`:
note the filter has no `showtime_id` condition. -/
def deleteLock (locks : List SeatLock) (seatId userId : Nat) : List SeatLock :=
  locks.filter (fun l => !(l.seat_id == seatId && l.user_id == userId))

/-- The `deselect` branch of the `select-seats` handler: one delete per seat,
filtered on seat and user only, then a `seats-released` emission to the other
members of the showtime room. -/
def deselectSeats (db : DB) (showtimeId : Nat) (seatIds : List Nat)
    (userId : Nat) : DB × List Emit :=
  ({ db with seat_locks :=
      seatIds.foldl (fun acc seatId => deleteLock acc seatId userId) db.seat_locks },
   [⟨showtimeId, true, .seatsReleased seatIds⟩])

/-- The `confirm-booking` socket handler: deletes the caller's lock per listed
seat (again filtered on seat and user only), then emits `seats-booked` via
`io.to(room)` — the whole room, sender included. It reads neither `bookings`
nor `booking_seats`. -/
def confirmBookingSocket (db : DB) (showtimeId bookingId : Nat)
    (seatIds : List Nat) (userId : Nat) : DB × List Emit :=
  ({ db with seat_locks :=
      seatIds.foldl (fun acc seatId => deleteLock acc seatId userId) db.seat_locks },
   [⟨showtimeId, false, .seatsBooked seatIds bookingId⟩])

/-! ## Reconciliation Sweeper: the cleanup `setInterval` -/

/-- The sweep interval passed to `setInterval`: 60000 ms. -/
def cleanupIntervalMs : Nat := 60000

/-- One step of the `expiredLocks.forEach` grouping loop: append the seat to
the showtime's bucket, creating the bucket on first sight of the showtime. -/
def insertIntoGroups (acc : List (Nat × List Nat)) (showtimeId seatId : Nat) :
    List (Nat × List Nat) :=
  if acc.any (fun p => p.fst == showtimeId) then
    acc.map (fun p => if p.fst == showtimeId then (p.fst, p.snd ++ [seatId]) else p)
  else
    acc ++ [(showtimeId, [seatId])]

/-- `locksByShowtime`: group the expired locks' seats by showtime, buckets in
order of first appearance. -/
def groupByShowtime (locks : List SeatLock) : List (Nat × List Nat) :=
  locks.foldl (fun acc l => insertIntoGroups acc l.showtime_id l.seat_id) []

/-- One tick of the cleanup interval: select the locks with
`locked_until < now`, and if there are any, delete them in one batch
(`delete().lt('locked_until', now)`) and emit one `seats-released` per
showtime group to the whole room. -/
def cleanupTick (db : DB) (now : Nat) : DB × List Emit :=
  let expiredLocks := db.seat_locks.filter (fun l => l.locked_until < now)
  if expiredLocks.length > 0 then
    ({ db with seat_locks := db.seat_locks.filter (fun l => !(l.locked_until < now)) },
     (groupByShowtime expiredLocks).map (fun p => ⟨p.fst, false, .seatsReleased p.snd⟩))
  else
    (db, [])

/-! ## Booking State Machine: `POST /` of the bookings router -/

/-- Outcome of the booking-creation route, one constructor per exit path. -/
inductive CreateBookingResult
  | validationFailed
  | showtimeNotFound
  | notLocked
  | alreadyBooked
  | seatInsertFailed
  | created (bookingId : Nat)
deriving DecidableEq, Repr

/-- The route's lock query:
`from('seat_locks').select('seat_id').eq('showtime_id', ...).eq('user_id', ...).in('seat_id', seatIds)`.
It filters on showtime, user and seat membership only — there is no
`locked_until` condition, so expired rows are returned too. -/
def userLockRows (db : DB) (showtimeId userId : Nat) (seatIds : List Nat) :
    List SeatLock :=
  db.seat_locks.filter (fun l =>
    l.showtime_id == showtimeId && l.user_id == userId && seatIds.contains l.seat_id)

/-- The booking-creation handler. `newBookingId` stands for the id the insert
returns; `seatInsertOk` is false exactly in the executions where the
`booking_seats` insert fails after the booking insert succeeded (in which case
the handler deletes the booking it just inserted and rethrows). The Joi schema
requires 1–10 seats and a positive amount. -/
def createBooking (db : DB) (newBookingId now : Nat) (seatInsertOk : Bool)
    (showtimeId : Nat) (seatIds : List Nat) (totalAmount : Nat) (userId : Nat) :
    DB × CreateBookingResult :=
  if seatIds.length < 1 || seatIds.length > 10 || totalAmount == 0 then
    (db, .validationFailed)
  else if !(db.showtimes.any (fun st => st.id == showtimeId)) then
    (db, .showtimeNotFound)
  else
    let seatLocks := userLockRows db showtimeId userId seatIds
    if seatLocks.length != seatIds.length then
      (db, .notLocked)
    else
      let bookedSeats := db.booking_seats.filter (fun bs =>
        bs.showtime_id == showtimeId && seatIds.contains bs.seat_id &&
        db.bookings.any (fun b => b.id == bs.booking_id &&
          (b.status == .confirmed || b.status == .paid)))
      if bookedSeats.length > 0 then
        (db, .alreadyBooked)
      else
        let booking : Booking :=
          ⟨newBookingId, userId, showtimeId, totalAmount, now, .pending⟩
        let db1 := { db with bookings := db.bookings ++ [booking] }
        if seatInsertOk then
          let bookingSeatsData := seatIds.map (fun seatId =>
            BookingSeat.mk newBookingId seatId showtimeId)
          ({ db1 with booking_seats := db1.booking_seats ++ bookingSeatsData },
           .created newBookingId)
        else
          ({ db1 with bookings := db1.bookings.filter (fun b => !(b.id == newBookingId)) },
           .seatInsertFailed)

/-! ## Payment webhook branches -/

/-- The `payment_intent.succeeded` webhook branch: set the payment completed,
set the booking paid, read the booking's seats, and if there are any, delete
the user's locks on those seats and emit `seats-booked` to the whole showtime
room. No guard checks whether the booking is already paid. -/
def confirmPaymentWebhook (db : DB) (now : Nat) (paymentIntentId bookingId userId : Nat) :
    DB × List Emit :=
  let payments := db.payments.map (fun p =>
    if p.stripe_payment_intent_id == paymentIntentId then
      { p with payment_status := .completed, payment_date := some now }
    else p)
  let bookings := db.bookings.map (fun b =>
    if b.id == bookingId then { b with status := .paid } else b)
  let bookingSeats := db.booking_seats.filter (fun bs => bs.booking_id == bookingId)
  match bookingSeats with
  | [] => ({ db with payments := payments, bookings := bookings }, [])
  | bs0 :: _ =>
    let showtimeId := bs0.showtime_id
    let seatIds := bookingSeats.map (fun bs => bs.seat_id)
    ({ db with
        payments := payments
        bookings := bookings
        seat_locks := db.seat_locks.filter (fun l =>
          !(seatIds.contains l.seat_id && l.user_id == userId)) },
     [⟨showtimeId, false, .seatsBooked seatIds bookingId⟩])

/-- The `payment_intent.payment_failed` webhook branch: set the payment row
failed; nothing else is touched and nothing is emitted. -/
def failPaymentWebhook (db : DB) (paymentIntentId : Nat) : DB × List Emit :=
  ({ db with payments := db.payments.map (fun p =>
      if p.stripe_payment_intent_id == paymentIntentId then
        { p with payment_status := .failed }
      else p) },
   [])

/-! ## Seat-map query: `GET /showtimes/:showtimeId/seats` -/

/-- Seat status in the seat-map response. -/
inductive SeatStatus
  | available
  | locked
  | booked
deriving DecidableEq, Repr

/-- One element of the seat-map response: the seat spread together with its
live status and, when locked, by whom and until when. -/
structure SeatWithStatus where
  seat : Seat
  status : SeatStatus
  lockedBy : Option Nat
  lockedUntil : Option Nat
deriving DecidableEq, Repr

/-- The `booking_seats` rows of the showtime whose (inner-joined) booking has
status `confirmed` or `paid`. -/
def bookedSeatsOf (db : DB) (showtimeId : Nat) : List BookingSeat :=
  db.booking_seats.filter (fun bs =>
    bs.showtime_id == showtimeId &&
    db.bookings.any (fun b => b.id == bs.booking_id &&
      (b.status == .confirmed || b.status == .paid)))

/-- The showtime's lock rows with `locked_until > now`. -/
def lockedSeatsOf (db : DB) (now showtimeId : Nat) : List SeatLock :=
  db.seat_locks.filter (fun l => l.showtime_id == showtimeId && now < l.locked_until)

/-- The per-seat body of the `seats.map` in the route: booked beats locked
beats available, and the first matching live lock supplies `lockedBy` and
`lockedUntil`. -/
def seatEntry (db : DB) (now showtimeId : Nat) (seat : Seat) : SeatWithStatus :=
  let isBooked := (bookedSeatsOf db showtimeId).any (fun bs => bs.seat_id == seat.id)
  let lock := (lockedSeatsOf db now showtimeId).find? (fun l => l.seat_id == seat.id)
  let status : SeatStatus :=
    if isBooked then .booked
    else match lock with
      | some _ => .locked
      | none => .available
  { seat := seat
    status := status
    lockedBy := lock.map (fun l => l.user_id)
    lockedUntil := lock.map (fun l => l.locked_until) }

/-- Row-major ordering used by the seats query
(`order('row_number')`, then `order('seat_number')`). -/
def seatOrder (a b : Seat) : Bool :=
  a.row_number < b.row_number ||
    (a.row_number == b.row_number && a.seat_number ≤ b.seat_number)

/-- The seat-map route: look the showtime up (404 when absent, modelled as
`none`), fetch the theater's seats in row-major order, and merge each with its
live status. -/
def getShowtimeSeats (db : DB) (now showtimeId : Nat) :
    Option (List SeatWithStatus) :=
  match db.showtimes.find? (fun st => st.id == showtimeId) with
  | none => none
  | some showtime =>
    let seats := (db.seats.filter (fun s => s.theater_id == showtime.theater_id)).mergeSort
      seatOrder
    some (seats.map (seatEntry db now showtimeId))

/-! ## Helper lemmas -/

/-- The per-seat delete loop of the `deselect` and `confirm-booking` handlers
is, as a whole, the filter that drops exactly the caller's locks on the listed
seats (for any showtime — the loop's filter never mentions one). -/
theorem foldl_deleteLock_eq_filter (seatIds : List Nat) (userId : Nat) :
    ∀ locks : List SeatLock,
      seatIds.foldl (fun acc seatId => deleteLock acc seatId userId) locks
        = locks.filter (fun l => !(seatIds.contains l.seat_id && l.user_id == userId)) := by
  induction seatIds with
  | nil =>
    intro locks
    simp [List.foldl]
  | cons s rest ih =>
    intro locks
    rw [List.foldl_cons, ih, deleteLock, List.filter_filter]
    apply List.filter_congr
    intro l _
    rw [List.contains_cons]
    cases hs : l.seat_id == s <;> cases hu : l.user_id == userId <;>
      cases hr : rest.contains l.seat_id <;> rfl

/-- The upserted row is a member of the table after the upsert. -/
theorem mem_upsertLock_self (locks : List SeatLock) (l : SeatLock) :
    l ∈ upsertLock locks l := by
  unfold upsertLock
  cases hany : locks.any (fun x => sameLockKey x l)
  · simp
  · rw [if_pos rfl]
    obtain ⟨x, hx, hkey⟩ := List.any_eq_true.mp hany
    have := List.mem_map_of_mem (fun x => if sameLockKey x l then l else x) hx
    simpa [hkey] using this

/-- A row that does not lose to the upsert (it either has a different key or
equals the upserted row) survives the upsert. -/
theorem mem_upsertLock_preserved (locks : List SeatLock) (l x : SeatLock)
    (hx : x ∈ locks) (h : sameLockKey x l = true → x = l) :
    x ∈ upsertLock locks l := by
  unfold upsertLock
  cases hany : locks.any (fun y => sameLockKey y l)
  · simp [hx]
  · rw [if_pos rfl]
    have := List.mem_map_of_mem (fun y => if sameLockKey y l then l else y) hx
    cases hk : sameLockKey x l
    · simpa [hk] using this
    · rw [h hk] at this ⊢
      simpa using this

/-- Every row of the table after an upsert was either already present or is
the upserted row. -/
theorem mem_upsertLock (locks : List SeatLock) (l x : SeatLock)
    (hx : x ∈ upsertLock locks l) : x ∈ locks ∨ x = l := by
  unfold upsertLock at hx
  cases hany : locks.any (fun y => sameLockKey y l) <;> rw [hany] at hx
  · simp only [Bool.false_eq_true, if_false, List.mem_append, List.mem_singleton] at hx
    exact hx
  · rw [if_pos rfl] at hx
    obtain ⟨y, hy, hyx⟩ := List.mem_map.mp hx
    cases hk : sameLockKey y l <;> rw [hk] at hyx
    · left
      simpa [← hyx] using hy
    · right
      simp at hyx
      exact hyx.symm

/-- Membership of a freshly-written lock row is preserved by the remaining
upserts of the same `select-seats` request: every later upsert carries the
same holder and expiry, so a key collision replaces the row by itself. -/
theorem selectSeats_fold_preserved (showtimeId userId exp : Nat) :
    ∀ (seatIds : List Nat) (acc : List SeatLock) (s : Nat),
      SeatLock.mk s showtimeId userId exp ∈ acc →
      SeatLock.mk s showtimeId userId exp
        ∈ seatIds.foldl
            (fun a seatId => upsertLock a ⟨seatId, showtimeId, userId, exp⟩) acc := by
  intro seatIds
  induction seatIds with
  | nil => intro acc s h; exact h
  | cons t rest ih =>
    intro acc s h
    rw [List.foldl_cons]
    apply ih
    apply mem_upsertLock_preserved _ _ _ h
    intro hk
    unfold sameLockKey at hk
    simp only [Bool.and_eq_true, beq_iff_eq] at hk
    rw [hk.1]

/-- Every seat of a `select-seats` request ends up with its lock row. -/
theorem selectSeats_fold_mem (showtimeId userId exp : Nat) :
    ∀ (seatIds : List Nat) (acc : List SeatLock) (s : Nat), s ∈ seatIds →
      SeatLock.mk s showtimeId userId exp
        ∈ seatIds.foldl
            (fun a seatId => upsertLock a ⟨seatId, showtimeId, userId, exp⟩) acc := by
  intro seatIds
  induction seatIds with
  | nil => intro acc s h; cases h
  | cons t rest ih =>
    intro acc s h
    rw [List.foldl_cons]
    rcases List.mem_cons.mp h with h | h
    · subst h
      exact selectSeats_fold_preserved _ _ _ _ _ _ (mem_upsertLock_self _ _)
    · exact ih _ _ h

/-- Every lock row present after the upsert loop of a `select-seats` request
was either already in the table or is one of the freshly-written rows. -/
theorem selectSeats_fold_subset (showtimeId userId exp : Nat) :
    ∀ (seatIds : List Nat) (acc : List SeatLock) (x : SeatLock),
      x ∈ seatIds.foldl
            (fun a seatId => upsertLock a ⟨seatId, showtimeId, userId, exp⟩) acc →
      x ∈ acc ∨ ∃ s ∈ seatIds, x = SeatLock.mk s showtimeId userId exp := by
  intro seatIds
  induction seatIds with
  | nil => intro acc x h; exact Or.inl h
  | cons t rest ih =>
    intro acc x h
    rw [List.foldl_cons] at h
    rcases ih _ _ h with h | ⟨s, hs, hx⟩
    · rcases mem_upsertLock _ _ _ h with h | h
      · exact Or.inl h
      · exact Or.inr ⟨t, List.mem_cons_self _ _, h⟩
    · exact Or.inr ⟨s, List.mem_cons_of_mem _ hs, hx⟩

/-- After inserting a seat into the showtime groups, the showtime has a bucket
containing that seat. -/
theorem insertIntoGroups_mem (acc : List (Nat × List Nat)) (st seat : Nat) :
    ∃ seats, (st, seats) ∈ insertIntoGroups acc st seat ∧ seat ∈ seats := by
  unfold insertIntoGroups
  cases hany : acc.any (fun p => p.fst == st)
  · exact ⟨[seat], by simp, by simp⟩
  · rw [if_pos rfl]
    obtain ⟨p, hp, hkey⟩ := List.any_eq_true.mp hany
    have hfst : p.fst = st := by simpa using hkey
    have := List.mem_map_of_mem
      (fun q => if q.fst == st then (q.fst, q.snd ++ [seat]) else q) hp
    exact ⟨p.snd ++ [seat], by simpa [hkey, hfst] using this, by simp⟩

/-- Inserting a seat into the showtime groups never removes a seat from a
showtime's bucket. -/
theorem insertIntoGroups_preserved (acc : List (Nat × List Nat))
    (st' seat' st x : Nat) (h : ∃ seats, (st, seats) ∈ acc ∧ x ∈ seats) :
    ∃ seats, (st, seats) ∈ insertIntoGroups acc st' seat' ∧ x ∈ seats := by
  obtain ⟨seats, hmem, hx⟩ := h
  unfold insertIntoGroups
  cases hany : acc.any (fun p => p.fst == st')
  · exact ⟨seats, by simp [hmem], hx⟩
  · rw [if_pos rfl]
    have := List.mem_map_of_mem
      (fun q => if q.fst == st' then (q.fst, q.snd ++ [seat']) else q) hmem
    by_cases hk : st = st'
    · subst hk
      exact ⟨seats ++ [seat'], by simpa using this, List.mem_append_left _ hx⟩
    · exact ⟨seats, by simpa [hk] using this, hx⟩

/-- Folding the grouping step over more locks preserves bucket membership. -/
theorem groups_fold_preserved (locks : List SeatLock) :
    ∀ (acc : List (Nat × List Nat)) (st x : Nat),
      (∃ seats, (st, seats) ∈ acc ∧ x ∈ seats) →
      ∃ seats,
        (st, seats)
          ∈ locks.foldl (fun a l => insertIntoGroups a l.showtime_id l.seat_id) acc ∧
        x ∈ seats := by
  induction locks with
  | nil => intro acc st x h; exact h
  | cons a rest ih =>
    intro acc st x h
    rw [List.foldl_cons]
    exact ih _ _ _ (insertIntoGroups_preserved _ _ _ _ _ h)

/-- Every grouped lock's seat appears in its showtime's bucket. -/
theorem groups_fold_mem (locks : List SeatLock) :
    ∀ (acc : List (Nat × List Nat)) (l : SeatLock), l ∈ locks →
      ∃ seats,
        (l.showtime_id, seats)
          ∈ locks.foldl (fun a x => insertIntoGroups a x.showtime_id x.seat_id) acc ∧
        l.seat_id ∈ seats := by
  induction locks with
  | nil => intro acc l h; cases h
  | cons a rest ih =>
    intro acc l h
    rw [List.foldl_cons]
    rcases List.mem_cons.mp h with h | h
    · subst h
      exact groups_fold_preserved _ _ _ _ (insertIntoGroups_mem _ _ _)
    · exact ih _ _ h

/-- Every lock of the expired batch has its seat in its showtime's group. -/
theorem groupByShowtime_mem (locks : List SeatLock) (l : SeatLock) (h : l ∈ locks) :
    ∃ seats, (l.showtime_id, seats) ∈ groupByShowtime locks ∧ l.seat_id ∈ seats :=
  groups_fold_mem locks [] l h

/-! ## Claim theorems -/

/-- C1. The claim says a select-seats request naming a seat that carries a
non-expired lock of a different holder, or a BookingSeat of a paid booking,
fails with Conflict and creates no lock. The code has no such check: at a
concrete conflicted input (seat 1 of showtime 1 locked by user 2 until t=1000,
user 1 selects it at t=0) the handler overwrites the competing lock and emits
`seats-locked`; and with seat 1 permanently taken by paid booking 7, the
handler likewise writes a lock and emits `seats-locked`. -/
theorem selectSeats_no_conflict_check :
    selectSeats ⟨[], [], [⟨1, 1, 2, 1000⟩], [], [], []⟩ 0 1 [1] 1
      = (⟨[], [], [⟨1, 1, 1, 600000⟩], [], [], []⟩,
         [⟨1, true, .seatsLocked [1] 1 600000⟩]) ∧
    selectSeats ⟨[], [], [], [⟨7, 2, 1, 24, 0, .paid⟩], [⟨7, 1, 1⟩], []⟩ 0 1 [1] 1
      = (⟨[], [], [⟨1, 1, 1, 600000⟩], [⟨7, 2, 1, 24, 0, .paid⟩], [⟨7, 1, 1⟩], []⟩,
         [⟨1, true, .seatsLocked [1] 1 600000⟩]) :=
  ⟨rfl, rfl⟩

/-- C2, counterexample. User 1's lock on seat 1 expired at t=10, yet the
booking request at t=1000 is accepted: the lock query has no `locked_until`
condition, so an expired lock row still counts and no `NotLocked` failure
occurs. -/
theorem createBooking_accepts_expired_lock :
    createBooking ⟨[], [⟨1, 1⟩], [⟨1, 1, 1, 10⟩], [], [], []⟩ 5 1000 true 1 [1] 24 1
      = (⟨[], [⟨1, 1⟩], [⟨1, 1, 1, 10⟩], [⟨5, 1, 1, 24, 1000, .pending⟩],
          [⟨5, 1, 1⟩], []⟩,
         .created 5) :=
  rfl

/-- C3, counterexample. A second delivery of `payment_intent.succeeded` for
the same booking re-emits the `seats-booked` notification: starting from a
pending booking 7 on seat 1 of showtime 1, the second webhook invocation's
emission list is again `[seats-booked {[1], 7}]`, not empty. -/
theorem confirmPayment_reemits_on_second_delivery :
    (confirmPaymentWebhook
        (confirmPaymentWebhook
          ⟨[], [⟨1, 1⟩], [⟨1, 1, 1, 600000⟩], [⟨7, 1, 1, 24, 0, .pending⟩],
           [⟨7, 1, 1⟩], [⟨7, 99, 24, .pending, none⟩]⟩
          100 99 7 1).1
        200 99 7 1).2
      = [⟨1, false, .seatsBooked [1] 7⟩] :=
  rfl

/-- C6, counterexample. The deselect branch deletes by seat and user only:
releasing seat 5 for showtime 1 also deletes holder 1's lock on seat 5 for
showtime 2, contradicting the claim that locks of the same holder on the same
seats for other showtimes are left unchanged. -/
theorem deselect_deletes_other_showtime_lock :
    (deselectSeats ⟨[], [], [⟨5, 2, 1, 600000⟩], [], [], []⟩ 1 [5] 1).1.seat_locks
      = [] :=
  rfl

/-- C6, amended. `deselectSeats` deletes exactly the locks owned by the holder
on the named seats, in every showtime (the delete filters only on seat and
user); locks of other holders or on other seats are untouched; the operation
is idempotent and always succeeds (it has no failure path), also when no such
lock exists. -/
theorem deselect_filters_on_seat_and_user (db : DB) (showtimeId : Nat)
    (seatIds : List Nat) (userId : Nat) :
    deselectSeats db showtimeId seatIds userId
      = ({ db with seat_locks := db.seat_locks.filter (fun l =>
            !(seatIds.contains l.seat_id && l.user_id == userId)) },
         [⟨showtimeId, true, .seatsReleased seatIds⟩]) ∧
    (deselectSeats (deselectSeats db showtimeId seatIds userId).1
        showtimeId seatIds userId).1
      = (deselectSeats db showtimeId seatIds userId).1 := by
  constructor
  · unfold deselectSeats
    rw [foldl_deleteLock_eq_filter]
  · simp only [deselectSeats, foldl_deleteLock_eq_filter, List.filter_filter,
      Bool.and_self]

/-- `confirmPaymentWebhook` never touches the `booking_seats` relation. -/
theorem confirmPayment_preserves_booking_seats (db : DB)
    (now paymentIntentId bookingId userId : Nat) :
    (confirmPaymentWebhook db now paymentIntentId bookingId userId).1.booking_seats
      = db.booking_seats := by
  unfold confirmPaymentWebhook
  cases hbs : db.booking_seats.filter (fun bs => bs.booking_id == bookingId) <;>
    simp [hbs]

/-- In both branches of `confirmPaymentWebhook`, the `bookings` relation is
mapped by the set-paid update. -/
theorem confirmPayment_bookings_eq (db : DB)
    (now paymentIntentId bookingId userId : Nat) :
    (confirmPaymentWebhook db now paymentIntentId bookingId userId).1.bookings
      = db.bookings.map (fun b =>
          if b.id == bookingId then { b with status := BookingStatus.paid } else b) := by
  unfold confirmPaymentWebhook
  cases hbs : db.booking_seats.filter (fun bs => bs.booking_id == bookingId) <;>
    simp [hbs]

/-- In both branches of `confirmPaymentWebhook`, the `seat_locks` relation is
filtered by the lock delete on the booking's seats (in the empty branch the
filter keeps everything). -/
theorem confirmPayment_seat_locks_eq (db : DB)
    (now paymentIntentId bookingId userId : Nat) :
    (confirmPaymentWebhook db now paymentIntentId bookingId userId).1.seat_locks
      = db.seat_locks.filter (fun l =>
          !(((db.booking_seats.filter (fun bs => bs.booking_id == bookingId)).map
              (fun bs => bs.seat_id)).contains l.seat_id && l.user_id == userId)) := by
  unfold confirmPaymentWebhook
  cases hbs : db.booking_seats.filter (fun bs => bs.booking_id == bookingId) <;>
    simp [hbs]

/-- The emissions of `confirmPaymentWebhook` as a function of the booking's
seat rows. -/
theorem confirmPayment_events_eq (db : DB)
    (now paymentIntentId bookingId userId : Nat) :
    (confirmPaymentWebhook db now paymentIntentId bookingId userId).2
      = match db.booking_seats.filter (fun bs => bs.booking_id == bookingId) with
        | [] => []
        | bs0 :: _ =>
          [⟨bs0.showtime_id, false,
            .seatsBooked
              ((db.booking_seats.filter (fun bs => bs.booking_id == bookingId)).map
                (fun bs => bs.seat_id)) bookingId⟩] := by
  unfold confirmPaymentWebhook
  cases hbs : db.booking_seats.filter (fun bs => bs.booking_id == bookingId) <;>
    simp [hbs]

/-- C3, amended. A second delivery of `payment_intent.succeeded` for the same
booking leaves the bookings, seat locks and booking seats exactly as the first
delivery left them (the second run's writes are idempotent, and no branch of
the handler errors), and it emits exactly the same `seats-booked` notification
again — the duplicate emission is not suppressed. -/
theorem confirmPayment_second_delivery_state_noop (db : DB)
    (now1 now2 paymentIntentId bookingId userId : Nat) :
    (confirmPaymentWebhook
        (confirmPaymentWebhook db now1 paymentIntentId bookingId userId).1
        now2 paymentIntentId bookingId userId).1.bookings
      = (confirmPaymentWebhook db now1 paymentIntentId bookingId userId).1.bookings ∧
    (confirmPaymentWebhook
        (confirmPaymentWebhook db now1 paymentIntentId bookingId userId).1
        now2 paymentIntentId bookingId userId).1.seat_locks
      = (confirmPaymentWebhook db now1 paymentIntentId bookingId userId).1.seat_locks ∧
    (confirmPaymentWebhook
        (confirmPaymentWebhook db now1 paymentIntentId bookingId userId).1
        now2 paymentIntentId bookingId userId).1.booking_seats
      = (confirmPaymentWebhook db now1 paymentIntentId bookingId userId).1.booking_seats ∧
    (confirmPaymentWebhook
        (confirmPaymentWebhook db now1 paymentIntentId bookingId userId).1
        now2 paymentIntentId bookingId userId).2
      = (confirmPaymentWebhook db now1 paymentIntentId bookingId userId).2 := by
  refine ⟨?_, ?_, ?_, ?_⟩
  · rw [confirmPayment_bookings_eq, confirmPayment_bookings_eq, List.map_map]
    apply List.map_congr_left
    intro b _
    by_cases h : b.id = bookingId <;> simp [h]
  · rw [confirmPayment_seat_locks_eq, confirmPayment_seat_locks_eq,
      confirmPayment_preserves_booking_seats, List.filter_filter]
    apply List.filter_congr
    intro l _
    cases ((db.booking_seats.filter (fun bs => bs.booking_id == bookingId)).map
        (fun bs => bs.seat_id)).contains l.seat_id &&
        l.user_id == userId <;> rfl
  · rw [confirmPayment_preserves_booking_seats, confirmPayment_preserves_booking_seats]
  · rw [confirmPayment_events_eq, confirmPayment_events_eq,
      confirmPayment_preserves_booking_seats]

/-- C10. The `confirm-booking` socket handler, for any database state and any
`bookingId`/`seatIds` whatsoever, deletes the caller's locks on the listed
seats and emits `seats-booked {seatIds, bookingId}` to the whole showtime room
(`io.to`, sender included). The result does not depend on `bookings` or
`booking_seats` at all — no existence, ownership, payment-status or coverage
check is made. -/
theorem confirmBookingSocket_behavior (db : DB) (showtimeId bookingId : Nat)
    (seatIds : List Nat) (userId : Nat) :
    confirmBookingSocket db showtimeId bookingId seatIds userId
      = ({ db with seat_locks := db.seat_locks.filter (fun l =>
            !(seatIds.contains l.seat_id && l.user_id == userId)) },
         [⟨showtimeId, false, .seatsBooked seatIds bookingId⟩]) := by
  unfold confirmBookingSocket
  rw [foldl_deleteLock_eq_filter]

/-- C9. The `payment_intent.payment_failed` branch marks the matching payment
rows failed and changes nothing else: bookings (hence a pending booking stays
pending), booking seats and seat locks are untouched, nothing is emitted, and
payment rows for other payment intents are preserved as they were. -/
theorem failPayment_leaves_booking_and_locks (db : DB) (paymentIntentId : Nat) :
    (failPaymentWebhook db paymentIntentId).1.bookings = db.bookings ∧
    (failPaymentWebhook db paymentIntentId).1.booking_seats = db.booking_seats ∧
    (failPaymentWebhook db paymentIntentId).1.seat_locks = db.seat_locks ∧
    (failPaymentWebhook db paymentIntentId).2 = [] ∧
    ∀ p ∈ db.payments,
      (p.stripe_payment_intent_id = paymentIntentId →
        { p with payment_status := .failed }
          ∈ (failPaymentWebhook db paymentIntentId).1.payments) ∧
      (p.stripe_payment_intent_id ≠ paymentIntentId →
        p ∈ (failPaymentWebhook db paymentIntentId).1.payments) := by
  refine ⟨rfl, rfl, rfl, rfl, ?_⟩
  intro p hp
  constructor
  · intro h
    have := List.mem_map_of_mem
      (f := fun q => if q.stripe_payment_intent_id == paymentIntentId then
        { q with payment_status := PaymentStatus.failed } else q) hp
    simpa [failPaymentWebhook, h] using this
  · intro h
    have := List.mem_map_of_mem
      (f := fun q => if q.stripe_payment_intent_id == paymentIntentId then
        { q with payment_status := PaymentStatus.failed } else q) hp
    simpa [failPaymentWebhook, h] using this

/-- C9, witness: at a concrete database holding one pending payment for
payment intent 99 and one unrelated payment for intent 42, the failed branch
yields the failed row for 99 and keeps the row for 42. -/
theorem failPayment_leaves_booking_and_locks_witness :
    (Payment.mk 7 99 24 .failed none)
      ∈ (failPaymentWebhook
          ⟨[], [], [], [], [], [⟨7, 99, 24, .pending, none⟩, ⟨8, 42, 12, .pending, none⟩]⟩
          99).1.payments ∧
    (Payment.mk 8 42 12 .pending none)
      ∈ (failPaymentWebhook
          ⟨[], [], [], [], [], [⟨7, 99, 24, .pending, none⟩, ⟨8, 42, 12, .pending, none⟩]⟩
          99).1.payments :=
  ⟨((failPayment_leaves_booking_and_locks
      ⟨[], [], [], [], [], [⟨7, 99, 24, .pending, none⟩, ⟨8, 42, 12, .pending, none⟩]⟩
      99).2.2.2.2 ⟨7, 99, 24, .pending, none⟩ (by simp)).1 (by decide),
   ((failPayment_leaves_booking_and_locks
      ⟨[], [], [], [], [], [⟨7, 99, 24, .pending, none⟩, ⟨8, 42, 12, .pending, none⟩]⟩
      99).2.2.2.2 ⟨8, 42, 12, .pending, none⟩ (by simp)).2 (by decide)⟩

/-- C8. A successful `select-seats` request computes one expiry,
`now + 10 minutes`, before its upsert loop: every requested seat gets a lock
row with exactly that expiry, every lock row the request writes (any row of
the resulting table that was not already present) carries that same expiry and
the requesting holder, and the single `seats-locked` emission announces that
shared expiry. -/
theorem selectSeats_lock_ttl (db : DB) (now showtimeId : Nat) (seatIds : List Nat)
    (userId s : Nat) (hs : s ∈ seatIds) :
    lockTTLms = 10 * 60 * 1000 ∧
    SeatLock.mk s showtimeId userId (now + lockTTLms)
      ∈ (selectSeats db now showtimeId seatIds userId).1.seat_locks ∧
    (∀ l ∈ (selectSeats db now showtimeId seatIds userId).1.seat_locks,
      l ∈ db.seat_locks ∨
        (l.seat_id ∈ seatIds ∧ l.showtime_id = showtimeId ∧ l.user_id = userId ∧
          l.locked_until = now + lockTTLms)) ∧
    (selectSeats db now showtimeId seatIds userId).2
      = [⟨showtimeId, true, .seatsLocked seatIds userId (now + lockTTLms)⟩] := by
  refine ⟨rfl, ?_, ?_, rfl⟩
  · exact selectSeats_fold_mem _ _ _ _ _ _ hs
  · intro l hl
    rcases selectSeats_fold_subset showtimeId userId (now + lockTTLms) seatIds
        db.seat_locks l hl with h | ⟨t, ht, hx⟩
    · exact Or.inl h
    · subst hx
      exact Or.inr ⟨ht, rfl, rfl, rfl⟩

/-- C8, witness: user 1 selects seats 1 and 2 of showtime 3 at t=500 on an
empty lock table; seat 2's lock row carries expiry 500 + 600000. -/
theorem selectSeats_lock_ttl_witness :
    lockTTLms = 10 * 60 * 1000 ∧
    SeatLock.mk 2 3 1 (500 + lockTTLms)
      ∈ (selectSeats ⟨[], [], [], [], [], []⟩ 500 3 [1, 2] 1).1.seat_locks ∧
    (∀ l ∈ (selectSeats ⟨[], [], [], [], [], []⟩ 500 3 [1, 2] 1).1.seat_locks,
      l ∈ (⟨[], [], [], [], [], []⟩ : DB).seat_locks ∨
        (l.seat_id ∈ [1, 2] ∧ l.showtime_id = 3 ∧ l.user_id = 1 ∧
          l.locked_until = 500 + lockTTLms)) ∧
    (selectSeats ⟨[], [], [], [], [], []⟩ 500 3 [1, 2] 1).2
      = [⟨3, true, .seatsLocked [1, 2] 1 (500 + lockTTLms)⟩] :=
  selectSeats_lock_ttl ⟨[], [], [], [], [], []⟩ 500 3 [1, 2] 1 2 (by decide)

/-- C5. The cleanup tick runs on the fixed 60000-ms interval and: keeps
exactly the locks whose expiry has not passed (so the expired batch is deleted
in one step), emits one `seats-released` per showtime group of the expired
batch, removes and announces any expired lock (so a lock never touched after
creation is swept and announced by the first tick whose `now` is past its
expiry), and leaves every unexpired lock untouched. -/
theorem cleanupTick_sweeps_expired (db : DB) (now : Nat) (l : SeatLock)
    (hl : l ∈ db.seat_locks) :
    cleanupIntervalMs = 60000 ∧
    (cleanupTick db now).1.seat_locks
      = db.seat_locks.filter (fun x => !(x.locked_until < now)) ∧
    (cleanupTick db now).2
      = (groupByShowtime (db.seat_locks.filter (fun x => x.locked_until < now))).map
          (fun p => ⟨p.fst, false, .seatsReleased p.snd⟩) ∧
    (l.locked_until < now →
      l ∉ (cleanupTick db now).1.seat_locks ∧
      ∃ seats,
        (Emit.mk l.showtime_id false (.seatsReleased seats)) ∈ (cleanupTick db now).2 ∧
        l.seat_id ∈ seats) ∧
    (now ≤ l.locked_until → l ∈ (cleanupTick db now).1.seat_locks) := by
  by_cases hlen :
      (db.seat_locks.filter (fun x => x.locked_until < now)).length > 0
  · refine ⟨rfl, ?_, ?_, ?_, ?_⟩
    · simp only [cleanupTick, hlen, if_pos]
    · simp only [cleanupTick, hlen, if_pos]
    · intro h
      constructor
      · simp only [cleanupTick, hlen, if_pos]
        intro hmem
        have := (List.mem_filter.mp hmem).2
        simp [h] at this
      · have hlf : l ∈ db.seat_locks.filter (fun x => x.locked_until < now) :=
          List.mem_filter.mpr ⟨hl, by simpa using h⟩
        obtain ⟨seats, hg, hseat⟩ :=
          groupByShowtime_mem (db.seat_locks.filter (fun x => x.locked_until < now)) l hlf
        refine ⟨seats, ?_, hseat⟩
        simp only [cleanupTick, hlen, if_pos]
        exact List.mem_map_of_mem
          (fun p => Emit.mk p.fst false (.seatsReleased p.snd)) hg
    · intro h
      simp only [cleanupTick, hlen, if_pos]
      exact List.mem_filter.mpr ⟨hl, by simp [Nat.not_lt.mpr h]⟩
  · have hnil : db.seat_locks.filter (fun x => x.locked_until < now) = [] :=
      List.length_eq_zero.mp (Nat.eq_zero_of_not_pos hlen)
    have hall := List.filter_eq_nil_iff.mp hnil
    refine ⟨rfl, ?_, ?_, ?_, ?_⟩
    · simp only [cleanupTick, hlen, if_neg]
      symm
      apply List.filter_eq_self.mpr
      intro x hx
      simpa using hall x hx
    · simp only [cleanupTick, hlen, if_neg, hnil]
      rfl
    · intro h
      exact absurd (by simpa using h) (by simpa using hall l hl)
    · intro h
      simp only [cleanupTick, hlen, if_neg]
      exact hl

/-- C5, witness: one lock (seat 1, showtime 4, holder 9) expired at t=50; the
tick at t=100 deletes it and emits `seats-released {[1]}` for showtime 4. -/
theorem cleanupTick_sweeps_expired_witness :
    cleanupIntervalMs = 60000 ∧
    (cleanupTick ⟨[], [], [⟨1, 4, 9, 50⟩], [], [], []⟩ 100).1.seat_locks
      = ([⟨1, 4, 9, 50⟩] : List SeatLock).filter (fun x => !(x.locked_until < 100)) ∧
    (cleanupTick ⟨[], [], [⟨1, 4, 9, 50⟩], [], [], []⟩ 100).2
      = (groupByShowtime
          (([⟨1, 4, 9, 50⟩] : List SeatLock).filter (fun x => x.locked_until < 100))).map
          (fun p => ⟨p.fst, false, .seatsReleased p.snd⟩) ∧
    ((50 : Nat) < 100 →
      (⟨1, 4, 9, 50⟩ : SeatLock)
          ∉ (cleanupTick ⟨[], [], [⟨1, 4, 9, 50⟩], [], [], []⟩ 100).1.seat_locks ∧
      ∃ seats,
        (Emit.mk 4 false (.seatsReleased seats))
            ∈ (cleanupTick ⟨[], [], [⟨1, 4, 9, 50⟩], [], [], []⟩ 100).2 ∧
        (1 : Nat) ∈ seats) ∧
    ((100 : Nat) ≤ 50 →
      (⟨1, 4, 9, 50⟩ : SeatLock)
        ∈ (cleanupTick ⟨[], [], [⟨1, 4, 9, 50⟩], [], [], []⟩ 100).1.seat_locks) :=
  cleanupTick_sweeps_expired ⟨[], [], [⟨1, 4, 9, 50⟩], [], [], []⟩ 100 ⟨1, 4, 9, 50⟩
    (by decide)

/-- C2, amended. If the request passes validation and the showtime exists,
but some requested seat has no lock row at all held by the requesting user for
this showtime (the query never looks at `locked_until`), then — on a lock
table respecting the unique `(seat, showtime)` key and for a duplicate-free
seat list — the route fails with `NotLocked` and the database is unchanged: no
booking and no booking-seat row is created. -/
theorem createBooking_notLocked_of_no_lock_row (db : DB)
    (newBookingId now : Nat) (seatInsertOk : Bool) (showtimeId : Nat)
    (seatIds : List Nat) (totalAmount userId : Nat)
    (hlen1 : 1 ≤ seatIds.length) (hlen2 : seatIds.length ≤ 10)
    (hamt : totalAmount ≠ 0)
    (hst : ∃ st ∈ db.showtimes, st.id = showtimeId)
    (hkeys : db.seat_locks.Pairwise
      (fun a b => ¬(a.seat_id = b.seat_id ∧ a.showtime_id = b.showtime_id)))
    (s : Nat) (hs : s ∈ seatIds)
    (hmiss : ∀ l ∈ db.seat_locks,
      ¬(l.showtime_id = showtimeId ∧ l.user_id = userId ∧ l.seat_id = s)) :
    createBooking db newBookingId now seatInsertOk showtimeId seatIds totalAmount userId
      = (db, .notLocked) := by
  have hmemL : ∀ l ∈ userLockRows db showtimeId userId seatIds,
      l ∈ db.seat_locks ∧ l.showtime_id = showtimeId ∧ l.user_id = userId ∧
        l.seat_id ∈ seatIds := by
    intro l hl
    unfold userLockRows at hl
    obtain ⟨hmem, hprops⟩ := List.mem_filter.mp hl
    simp only [Bool.and_eq_true, beq_iff_eq] at hprops
    exact ⟨hmem, hprops.1.1, hprops.1.2, by simpa using hprops.2⟩
  have hpairL : (userLockRows db showtimeId userId seatIds).Pairwise
      (fun a b => ¬(a.seat_id = b.seat_id ∧ a.showtime_id = b.showtime_id)) :=
    List.Pairwise.sublist (List.filter_sublist _) hkeys
  have hpairSeat : (userLockRows db showtimeId userId seatIds).Pairwise
      (fun a b => a.seat_id ≠ b.seat_id) := by
    refine List.Pairwise.imp_of_mem ?_ hpairL
    intro a b ha hb hR heq
    exact hR ⟨heq, by rw [(hmemL a ha).2.1, (hmemL b hb).2.1]⟩
  have hndmap : ((userLockRows db showtimeId userId seatIds).map
      (fun l => l.seat_id)).Nodup := List.pairwise_map.mpr hpairSeat
  have hsubset : ((userLockRows db showtimeId userId seatIds).map (fun l => l.seat_id))
      ⊆ seatIds.erase s := by
    intro x hx
    obtain ⟨l, hl, hlx⟩ := List.mem_map.mp hx
    subst hlx
    obtain ⟨hmem, hshow, huser, hseat⟩ := hmemL l hl
    have hxs : l.seat_id ≠ s := fun h => hmiss l hmem ⟨hshow, huser, h⟩
    exact (List.mem_erase_of_ne hxs).mpr hseat
  have hlt : (userLockRows db showtimeId userId seatIds).length < seatIds.length := by
    have ha := (List.subperm_of_subset hndmap hsubset).length_le
    rw [List.length_map] at ha
    have hb := List.length_erase_of_mem hs
    omega
  have h1 : ¬ (seatIds.length < 1) := by omega
  have h2 : ¬ (seatIds.length > 10) := by omega
  obtain ⟨st, hstmem, hstid⟩ := hst
  have h3 : db.showtimes.any (fun x => x.id == showtimeId) = true :=
    List.any_eq_true.mpr ⟨st, hstmem, by simpa using hstid⟩
  have hne : ((userLockRows db showtimeId userId seatIds).length != seatIds.length)
      = true := by
    simpa using Nat.ne_of_lt hlt
  simp [createBooking, h1, h2, hamt, h3, hne]

/-- C2, witness: user 1 holds a lock row only on seat 2 of showtime 1; a
booking request for seats 1 and 2 fails with `NotLocked` and leaves the
database unchanged. -/
theorem createBooking_notLocked_of_no_lock_row_witness :
    createBooking ⟨[], [⟨1, 1⟩], [⟨2, 1, 1, 9999⟩], [], [], []⟩ 5 0 true 1 [1, 2] 24 1
      = (⟨[], [⟨1, 1⟩], [⟨2, 1, 1, 9999⟩], [], [], []⟩, .notLocked) :=
  createBooking_notLocked_of_no_lock_row ⟨[], [⟨1, 1⟩], [⟨2, 1, 1, 9999⟩], [], [], []⟩
    5 0 true 1 [1, 2] 24 1 (by decide) (by decide) (by decide)
    ⟨⟨1, 1⟩, by decide, rfl⟩ (by simp) 1 (by decide) (by decide)

/-- C4. In every execution that reaches the seat-link insert (validation
passed, the showtime exists, every seat had a lock row, no seat was already
booked) and in which that insert fails after the booking insert succeeded,
the handler's compensating delete removes the booking it just inserted: the
route returns the original database unchanged — in particular no `pending`
booking without seats survives — and surfaces the failure. -/
theorem createBooking_rollback_on_seat_insert_failure (db : DB)
    (newBookingId now showtimeId : Nat) (seatIds : List Nat)
    (totalAmount userId : Nat)
    (hlen1 : 1 ≤ seatIds.length) (hlen2 : seatIds.length ≤ 10)
    (hamt : totalAmount ≠ 0)
    (hst : ∃ st ∈ db.showtimes, st.id = showtimeId)
    (hlocks : (userLockRows db showtimeId userId seatIds).length = seatIds.length)
    (hbooked : db.booking_seats.filter (fun bs =>
        bs.showtime_id == showtimeId && seatIds.contains bs.seat_id &&
        db.bookings.any (fun b => b.id == bs.booking_id &&
          (b.status == BookingStatus.confirmed || b.status == BookingStatus.paid)))
      = [])
    (hfresh : ∀ b ∈ db.bookings, b.id ≠ newBookingId) :
    createBooking db newBookingId now false showtimeId seatIds totalAmount userId
      = (db, .seatInsertFailed) := by
  simp only [List.filter_eq_nil_iff] at hbooked
  simp at hbooked
  have h1 : ¬ (seatIds.length < 1) := by omega
  have h2 : ¬ (seatIds.length > 10) := by omega
  obtain ⟨st, hstmem, hstid⟩ := hst
  have h3 : db.showtimes.any (fun x => x.id == showtimeId) = true :=
    List.any_eq_true.mpr ⟨st, hstmem, by simpa using hstid⟩
  have h5 : (db.bookings
        ++ ([⟨newBookingId, userId, showtimeId, totalAmount, now, BookingStatus.pending⟩]
            : List Booking)).filter
        (fun b => !(b.id == newBookingId)) = db.bookings := by
    rw [List.filter_append]
    have hself : db.bookings.filter (fun b => !(b.id == newBookingId)) = db.bookings :=
      List.filter_eq_self.mpr (fun b hb => by simpa using hfresh b hb)
    simp [hself]
  simp [createBooking, h1, h2, hamt, h3, hlocks, h5]
  exact hbooked

/-- C4, witness: user 1 holds a lock row on seat 1 of showtime 1 and the
seat-link insert fails; the route returns the untouched database and the
failure. -/
theorem createBooking_rollback_on_seat_insert_failure_witness :
    createBooking ⟨[], [⟨1, 1⟩], [⟨1, 1, 1, 10⟩], [], [], []⟩ 5 0 false 1 [1] 24 1
      = (⟨[], [⟨1, 1⟩], [⟨1, 1, 1, 10⟩], [], [], []⟩, .seatInsertFailed) :=
  createBooking_rollback_on_seat_insert_failure
    ⟨[], [⟨1, 1⟩], [⟨1, 1, 1, 10⟩], [], [], []⟩ 5 0 1 [1] 24 1
    (by decide) (by decide) (by decide) ⟨⟨1, 1⟩, by decide, rfl⟩
    (by decide) (by decide) (by decide)

/-- The spec's condition for a seat being permanently taken: a BookingSeat row
for the seat and showtime whose booking has status `confirmed` or `paid`. -/
def SeatBooked (db : DB) (showtimeId seatId : Nat) : Prop :=
  ∃ bs ∈ db.booking_seats, bs.showtime_id = showtimeId ∧ bs.seat_id = seatId ∧
    ∃ b ∈ db.bookings, b.id = bs.booking_id ∧
      (b.status = BookingStatus.confirmed ∨ b.status = BookingStatus.paid)

/-- The spec's condition for a seat being held: an unexpired SeatLock for the
seat and showtime. -/
def SeatLiveLocked (db : DB) (now showtimeId seatId : Nat) : Prop :=
  ∃ l ∈ db.seat_locks, l.showtime_id = showtimeId ∧ now < l.locked_until ∧
    l.seat_id = seatId

/-- The route's booked test agrees with the spec's permanently-taken
condition. -/
theorem bookedSeatsOf_any_iff (db : DB) (showtimeId seatId : Nat) :
    ((bookedSeatsOf db showtimeId).any (fun bs => bs.seat_id == seatId) = true)
      ↔ SeatBooked db showtimeId seatId := by
  unfold bookedSeatsOf SeatBooked
  rw [List.any_eq_true]
  constructor
  · rintro ⟨bs, hbs, hseat⟩
    obtain ⟨hmem, hcond⟩ := List.mem_filter.mp hbs
    simp only [Bool.and_eq_true, beq_iff_eq, List.any_eq_true, Bool.or_eq_true]
      at hcond hseat
    exact ⟨bs, hmem, hcond.1, hseat, hcond.2⟩
  · rintro ⟨bs, hmem, hshow, hseat, b, hb, hbid, hbstat⟩
    refine ⟨bs, List.mem_filter.mpr ⟨hmem, ?_⟩, by simpa using hseat⟩
    simp only [Bool.and_eq_true, beq_iff_eq, List.any_eq_true, Bool.or_eq_true]
    exact ⟨hshow, b, hb, by simp [hbid, hbstat]⟩

/-- The route's live-lock lookup succeeds exactly when the spec's unexpired
lock condition holds. -/
theorem lockedSeatsOf_find?_isSome_iff (db : DB) (now showtimeId seatId : Nat) :
    (((lockedSeatsOf db now showtimeId).find?
        (fun l => l.seat_id == seatId)).isSome = true)
      ↔ SeatLiveLocked db now showtimeId seatId := by
  rw [List.find?_isSome]
  unfold lockedSeatsOf SeatLiveLocked
  constructor
  · rintro ⟨l, hl, hseat⟩
    obtain ⟨hmem, hcond⟩ := List.mem_filter.mp hl
    simp only [Bool.and_eq_true, beq_iff_eq, decide_eq_true_eq] at hcond hseat
    exact ⟨l, hmem, hcond.1, hcond.2, hseat⟩
  · rintro ⟨l, hmem, hshow, hnow, hseat⟩
    exact ⟨l, List.mem_filter.mpr ⟨hmem, by simp [hshow, hnow]⟩, by simp [hseat]⟩

/-- C7. When the showtime exists, the seat-map query returns an entry for
every seat of the showtime's theater, and on each entry: status is `booked`
exactly when a BookingSeat for that seat and showtime belongs to a confirmed
or paid booking; `locked` exactly when the seat is not booked and an unexpired
SeatLock exists; `available` exactly otherwise; and a locked entry carries the
holder and expiry of a live lock on that seat. -/
theorem getShowtimeSeats_status (db : DB) (now showtimeId : Nat)
    (st : Showtime) (hst : db.showtimes.find? (fun x => x.id == showtimeId) = some st)
    (s : Seat) (hs : s ∈ db.seats) (hth : s.theater_id = st.theater_id) :
    ∃ entries, getShowtimeSeats db now showtimeId = some entries ∧
      seatEntry db now showtimeId s ∈ entries ∧
      (((seatEntry db now showtimeId s).status = .booked
        ↔ SeatBooked db showtimeId s.id) ∧
      ((seatEntry db now showtimeId s).status = .locked
        ↔ ¬ SeatBooked db showtimeId s.id ∧ SeatLiveLocked db now showtimeId s.id) ∧
      ((seatEntry db now showtimeId s).status = .available
        ↔ ¬ SeatBooked db showtimeId s.id ∧ ¬ SeatLiveLocked db now showtimeId s.id) ∧
      ((seatEntry db now showtimeId s).status = .locked →
        ∃ l ∈ db.seat_locks, l.showtime_id = showtimeId ∧ now < l.locked_until ∧
          l.seat_id = s.id ∧
          (seatEntry db now showtimeId s).lockedBy = some l.user_id ∧
          (seatEntry db now showtimeId s).lockedUntil = some l.locked_until)) := by
  have hBiff := bookedSeatsOf_any_iff db showtimeId s.id
  have hLiff := lockedSeatsOf_find?_isSome_iff db now showtimeId s.id
  refine ⟨((db.seats.filter (fun x => x.theater_id == st.theater_id)).mergeSort
      seatOrder).map (seatEntry db now showtimeId), ?_, ?_, ?_⟩
  · unfold getShowtimeSeats
    rw [hst]
  · exact List.mem_map_of_mem _
      (List.mem_mergeSort.mpr (List.mem_filter.mpr ⟨hs, by simpa using hth⟩))
  · cases hB : (bookedSeatsOf db showtimeId).any (fun bs => bs.seat_id == s.id)
    · rw [hB] at hBiff
      simp only [Bool.false_eq_true, false_iff] at hBiff
      cases hLk : (lockedSeatsOf db now showtimeId).find? (fun l => l.seat_id == s.id)
      · rw [hLk] at hLiff
        simp only [Option.isSome_none, Bool.false_eq_true, false_iff] at hLiff
        simp [seatEntry, hB, hLk, hBiff, hLiff]
      · rename_i l
        rw [hLk] at hLiff
        simp only [Option.isSome_some, true_iff] at hLiff
        have hmeml := List.mem_of_find?_eq_some hLk
        have hpl := List.find?_some hLk
        unfold lockedSeatsOf at hmeml
        obtain ⟨hmem, hcond⟩ := List.mem_filter.mp hmeml
        simp only [Bool.and_eq_true, beq_iff_eq, decide_eq_true_eq] at hcond
        simp only [beq_iff_eq] at hpl
        refine ⟨?_, ?_, ?_, ?_⟩
        · simp [seatEntry, hB, hLk, hBiff]
        · simp [seatEntry, hB, hLk, hBiff, hLiff]
        · simp [seatEntry, hB, hLk, hBiff, hLiff]
        · intro hstat
          exact ⟨l, hmem, hcond.1, hcond.2, hpl,
            by simp [seatEntry, hB, hLk], by simp [seatEntry, hB, hLk]⟩
    · rw [hB] at hBiff
      simp only [true_iff] at hBiff
      simp [seatEntry, hB, hBiff]

/-- C7, witness: a theater with one seat (id 1) and a live lock by holder 9
until t=500; the seat-map query at t=100 contains the seat's entry, whose
status characterization instantiates the theorem at this input. -/
theorem getShowtimeSeats_status_witness :
    ∃ entries,
      getShowtimeSeats
          ⟨[⟨1, 1, 1, 1, .regular⟩], [⟨1, 1⟩], [⟨1, 1, 9, 500⟩], [], [], []⟩ 100 1
        = some entries ∧
      seatEntry ⟨[⟨1, 1, 1, 1, .regular⟩], [⟨1, 1⟩], [⟨1, 1, 9, 500⟩], [], [], []⟩
          100 1 ⟨1, 1, 1, 1, .regular⟩ ∈ entries ∧
      (((seatEntry ⟨[⟨1, 1, 1, 1, .regular⟩], [⟨1, 1⟩], [⟨1, 1, 9, 500⟩], [], [], []⟩
            100 1 ⟨1, 1, 1, 1, .regular⟩).status = .booked
        ↔ SeatBooked ⟨[⟨1, 1, 1, 1, .regular⟩], [⟨1, 1⟩], [⟨1, 1, 9, 500⟩], [], [], []⟩
            1 1) ∧
      ((seatEntry ⟨[⟨1, 1, 1, 1, .regular⟩], [⟨1, 1⟩], [⟨1, 1, 9, 500⟩], [], [], []⟩
            100 1 ⟨1, 1, 1, 1, .regular⟩).status = .locked
        ↔ ¬ SeatBooked ⟨[⟨1, 1, 1, 1, .regular⟩], [⟨1, 1⟩], [⟨1, 1, 9, 500⟩], [], [], []⟩
              1 1 ∧
          SeatLiveLocked
            ⟨[⟨1, 1, 1, 1, .regular⟩], [⟨1, 1⟩], [⟨1, 1, 9, 500⟩], [], [], []⟩ 100 1 1) ∧
      ((seatEntry ⟨[⟨1, 1, 1, 1, .regular⟩], [⟨1, 1⟩], [⟨1, 1, 9, 500⟩], [], [], []⟩
            100 1 ⟨1, 1, 1, 1, .regular⟩).status = .available
        ↔ ¬ SeatBooked ⟨[⟨1, 1, 1, 1, .regular⟩], [⟨1, 1⟩], [⟨1, 1, 9, 500⟩], [], [], []⟩
              1 1 ∧
          ¬ SeatLiveLocked
              ⟨[⟨1, 1, 1, 1, .regular⟩], [⟨1, 1⟩], [⟨1, 1, 9, 500⟩], [], [], []⟩ 100 1 1) ∧
      ((seatEntry ⟨[⟨1, 1, 1, 1, .regular⟩], [⟨1, 1⟩], [⟨1, 1, 9, 500⟩], [], [], []⟩
            100 1 ⟨1, 1, 1, 1, .regular⟩).status = .locked →
        ∃ l ∈ (⟨[⟨1, 1, 1, 1, .regular⟩], [⟨1, 1⟩], [⟨1, 1, 9, 500⟩], [], [], []⟩
            : DB).seat_locks,
          l.showtime_id = 1 ∧ 100 < l.locked_until ∧ l.seat_id = 1 ∧
          (seatEntry ⟨[⟨1, 1, 1, 1, .regular⟩], [⟨1, 1⟩], [⟨1, 1, 9, 500⟩], [], [], []⟩
              100 1 ⟨1, 1, 1, 1, .regular⟩).lockedBy = some l.user_id ∧
          (seatEntry ⟨[⟨1, 1, 1, 1, .regular⟩], [⟨1, 1⟩], [⟨1, 1, 9, 500⟩], [], [], []⟩
              100 1 ⟨1, 1, 1, 1, .regular⟩).lockedUntil = some l.locked_until)) :=
  getShowtimeSeats_status
    ⟨[⟨1, 1, 1, 1, .regular⟩], [⟨1, 1⟩], [⟨1, 1, 9, 500⟩], [], [], []⟩ 100 1
    ⟨1, 1⟩ rfl ⟨1, 1, 1, 1, .regular⟩ (by decide) rfl

end MovieTicket
